import Mathlib

/-!
Shallow embedding of `src/pywalfox/daemon.py` (pywalfox-native): the dispatcher
of the daemon that brokers messages between a browser extension and the local
desktop environment. Side effects (outbound messages on the upstream channel
and calls into the filesystem collaborators) are made explicit as a list of
`Effect`s produced by each handler; the external collaborators
(`custom_css.py`, `fetcher.py`) are an `Env` of function-valued parameters,
since only their result types cross the dispatcher's boundary.
-/

set_option maxHeartbeats 1000000

namespace Pywalfox

/-- Keys of the `ACTIONS` table that `daemon.py` imports from `config.py`. -/
inductive ActionKey where
  | VERSION
  | COLORS
  | CSS_ENABLE
  | CSS_DISABLE
  | CSS_FONT_SIZE
  | THEME_MODE
  | OUTPUT
  | INVALID_ACTION
  deriving DecidableEq, Repr

/-- Modelled from the spec: the `ACTIONS` table of `config.py` is not part of
the provided source; §6 fixes the action vocabulary as a set of stable string
wire values (version-query, colors-query, css-enable, css-disable,
css-font-size, theme-mode, output, invalid-action). -/
def ACTIONS : ActionKey → String
  | ActionKey.VERSION => "version-query"
  | ActionKey.COLORS => "colors-query"
  | ActionKey.CSS_ENABLE => "css-enable"
  | ActionKey.CSS_DISABLE => "css-disable"
  | ActionKey.CSS_FONT_SIZE => "css-font-size"
  | ActionKey.THEME_MODE => "theme-mode"
  | ActionKey.OUTPUT => "output"
  | ActionKey.INVALID_ACTION => "invalid-action"

/-- Keys of the `COMMANDS` table that `daemon.py` imports from `config.py`. -/
inductive CommandKey where
  | UPDATE
  | THEME_MODE_DARK
  | THEME_MODE_LIGHT
  | THEME_MODE_AUTO
  deriving DecidableEq, Repr

/-- Modelled from the spec: the `COMMANDS` table of `config.py` is not part of
the provided source; §3 and §6 fix the command vocabulary as the plain tokens
`update`, `theme-dark`, `theme-light`, `theme-auto`. -/
def COMMANDS : CommandKey → String
  | CommandKey.UPDATE => "update"
  | CommandKey.THEME_MODE_DARK => "theme-dark"
  | CommandKey.THEME_MODE_LIGHT => "theme-light"
  | CommandKey.THEME_MODE_AUTO => "theme-auto"

/-- Modelled from the spec: `DAEMON_VERSION` lives in `config.py`, not in the
provided source; it is an opaque version string, its exact value is irrelevant
to every claim. -/
def DAEMON_VERSION : String := "2.7"

/-- Polymorphic payload carried in the `data` field of a `Message` (§3:
"`data` is polymorphic per action (string, mapping, or absent)"). `obj`
stands for an opaque mapping such as the pywal color palette. -/
inductive JValue where
  | str (s : String)
  | num (n : Int)
  | obj
  deriving DecidableEq, Repr

/-- Modelled from the spec: the outbound `Message` of `response.py` is not part
of the provided source; §3 fixes its shape as
`\x7baction, data optional, success bool defaulting to true, message optional\x7d`. -/
structure Message where
  action : String
  data : Option JValue := none
  success : Bool := true
  message : Option String := none
  deriving DecidableEq, Repr

/-- An inbound decoded message (a Python dict in `daemon.py`): possibly
carrying `action`, `target` and `size` keys. An absent key is `none`;
`message["action"]` on an absent key raises `KeyError` in the source, which
the embedding reflects by matching on the `Option`. -/
structure InMsg where
  action : Option String := none
  target : Option String := none
  size : Option JValue := none
  deriving DecidableEq, Repr

/-- The external collaborators consumed by the dispatcher (§6): palette fetch
`get_pywal_colors` and the CSS mutators `enable_custom_css`,
`disable_custom_css`, `set_font_size`, each returning the result tuple that
`daemon.py` unpacks. -/
structure Env where
  enable_custom_css : String → String → Bool × String
  disable_custom_css : String → String → Bool × String
  set_font_size : String → String → JValue → Bool × String
  get_pywal_colors : Bool × Option JValue × Option String

/-- One observable side effect of the dispatcher: either a `Message` sent on
the upstream channel via `self.messenger.send_message`, or a call into one of
the external collaborators. -/
inductive Effect where
  | send (m : Message)
  | callEnable (path target : String)
  | callDisable (path target : String)
  | callSetFontSize (path target : String) (size : JValue)
  | callGetPywalColors
  deriving DecidableEq, Repr

/-- Whether an effect is a call into a filesystem-mutation collaborator. -/
def Effect.isFsMutation : Effect → Bool
  | Effect.callEnable _ _ => true
  | Effect.callDisable _ _ => true
  | Effect.callSetFontSize _ _ _ => true
  | _ => false

/-- Python truthiness of `self.chrome_path`: `get_firefox_chrome_path` yields
an optional path, and `not self.chrome_path` is true exactly when the path is
`None` or the empty string. -/
def chromePathTruthy : Option String → Bool
  | none => false
  | some p => !(p == "")

/-- Effects of `Daemon.send_version` (daemon.py:92-94). -/
def send_version : List Effect :=
  [Effect.send { action := ACTIONS ActionKey.VERSION, data := some (JValue.str DAEMON_VERSION) }]

/-- Effects of `Daemon.send_pywal_colors` (daemon.py:96-106): unpacks the
collaborator's `(success, pywal_data, message)` and sends them verbatim. -/
def send_pywal_colors (env : Env) : List Effect :=
  [Effect.callGetPywalColors,
   Effect.send { action := ACTIONS ActionKey.COLORS,
                 data := env.get_pywal_colors.2.1,
                 success := env.get_pywal_colors.1,
                 message := env.get_pywal_colors.2.2 }]

/-- Effects of `Daemon.send_invalid_action` (daemon.py:108-110): a Message
with the invalid-action action, `success=False`, and no other field. -/
def send_invalid_action : List Effect :=
  [Effect.send { action := ACTIONS ActionKey.INVALID_ACTION, success := false }]

/-- `Daemon.check_chrome_path` (daemon.py:55-75): when `chrome_path` is falsy,
sends a failure Message with the fixed explanation and returns `False`;
otherwise returns `True` with no effect. -/
def check_chrome_path (chrome_path : Option String) (action target : String) :
    Bool × List Effect :=
  if !(chromePathTruthy chrome_path) then
    (false,
     [Effect.send { action := action, data := some (JValue.str target), success := false,
                    message := some "Could not find path to chrome folder" }])
  else
    (true, [])

/-- `Daemon.check_target` (daemon.py:77-90): returns the target when the key
is present with a value of positive length, else sends an invalid-action
Message and returns `False`. The `logging.error` call is not an observable
effect of the model. -/
def check_target (message : InMsg) : Option String × List Effect :=
  match message.target with
  | some t => if t.length > 0 then (some t, []) else (none, send_invalid_action)
  | none => (none, send_invalid_action)

/-- `Daemon.send_enable_css_response` (daemon.py:120-138): validates the
target, checks the chrome path, then calls `enable_custom_css` and sends its
`(success, message)` verbatim with `data = target`. -/
def send_enable_css_response (env : Env) (chrome_path : Option String) (message : InMsg) :
    List Effect :=
  let action := ACTIONS ActionKey.CSS_ENABLE
  match check_target message with
  | (some target, effs) =>
      if (check_chrome_path chrome_path action target).1 then
        let path := chrome_path.getD ""
        let r := env.enable_custom_css path target
        effs ++ (check_chrome_path chrome_path action target).2 ++
          [Effect.callEnable path target,
           Effect.send { action := action, data := some (JValue.str target),
                         success := r.1, message := some r.2 }]
      else effs ++ (check_chrome_path chrome_path action target).2
  | (none, effs) => effs

/-- `Daemon.send_disable_css_response` (daemon.py:140-158): same shape as the
enable handler, delegating to `disable_custom_css`. -/
def send_disable_css_response (env : Env) (chrome_path : Option String) (message : InMsg) :
    List Effect :=
  let action := ACTIONS ActionKey.CSS_DISABLE
  match check_target message with
  | (some target, effs) =>
      if (check_chrome_path chrome_path action target).1 then
        let path := chrome_path.getD ""
        let r := env.disable_custom_css path target
        effs ++ (check_chrome_path chrome_path action target).2 ++
          [Effect.callDisable path target,
           Effect.send { action := action, data := some (JValue.str target),
                         success := r.1, message := some r.2 }]
      else effs ++ (check_chrome_path chrome_path action target).2
  | (none, effs) => effs

/-- `Daemon.send_font_size_response` (daemon.py:160-182): validates target and
chrome path, then only when the `size` key is present calls `set_font_size`
and sends its result with `data = new_size`; when `size` is absent nothing
further happens. -/
def send_font_size_response (env : Env) (chrome_path : Option String) (message : InMsg) :
    List Effect :=
  let action := ACTIONS ActionKey.CSS_FONT_SIZE
  match check_target message with
  | (some target, effs) =>
      if (check_chrome_path chrome_path action target).1 then
        match message.size with
        | some new_size =>
            let path := chrome_path.getD ""
            let r := env.set_font_size path target new_size
            effs ++ (check_chrome_path chrome_path action target).2 ++
              [Effect.callSetFontSize path target new_size,
               Effect.send { action := action, data := some new_size,
                             success := r.1, message := some r.2 }]
        | none => effs ++ (check_chrome_path chrome_path action target).2
      else effs ++ (check_chrome_path chrome_path action target).2
  | (none, effs) => effs

/-- `Daemon.send_theme_mode` (daemon.py:184-195). -/
def send_theme_mode (mode : String) : List Effect :=
  [Effect.send { action := ACTIONS ActionKey.THEME_MODE, data := some (JValue.str mode) }]

/-- `Daemon.handle_message` (daemon.py:197-220): routes on the `action` key;
a missing key raises `KeyError`, caught to send an invalid-action Message, and
an unrecognized action falls through to the same reply. -/
def handle_message (env : Env) (chrome_path : Option String) (message : InMsg) : List Effect :=
  match message.action with
  | some action =>
      if action = ACTIONS ActionKey.VERSION then send_version
      else if action = ACTIONS ActionKey.COLORS then send_pywal_colors env
      else if action = ACTIONS ActionKey.CSS_ENABLE then
        send_enable_css_response env chrome_path message
      else if action = ACTIONS ActionKey.CSS_DISABLE then
        send_disable_css_response env chrome_path message
      else if action = ACTIONS ActionKey.CSS_FONT_SIZE then
        send_font_size_response env chrome_path message
      else send_invalid_action
  | none => send_invalid_action

/-- One iteration of `Daemon.socket_thread_worker` (daemon.py:222-237) on a
command string received from the local socket server: routes the four known
commands, ignores everything else, and never replies on the local channel
(the `Effect` vocabulary has no local-channel output because the source never
writes one). -/
def socket_thread_worker_step (env : Env) (message : String) : List Effect :=
  if message = COMMANDS CommandKey.UPDATE then send_pywal_colors env
  else if message = COMMANDS CommandKey.THEME_MODE_DARK then send_theme_mode "dark"
  else if message = COMMANDS CommandKey.THEME_MODE_LIGHT then send_theme_mode "light"
  else if message = COMMANDS CommandKey.THEME_MODE_AUTO then send_theme_mode "auto"
  else []

/-- The five action strings `handle_message` recognizes. -/
def UPSTREAM_ACTIONS : List String :=
  [ACTIONS ActionKey.VERSION, ACTIONS ActionKey.COLORS, ACTIONS ActionKey.CSS_ENABLE,
   ACTIONS ActionKey.CSS_DISABLE, ACTIONS ActionKey.CSS_FONT_SIZE]

/-- The full action vocabulary of §6. -/
def ACTION_VOCABULARY : List String :=
  [ACTIONS ActionKey.VERSION, ACTIONS ActionKey.COLORS, ACTIONS ActionKey.CSS_ENABLE,
   ACTIONS ActionKey.CSS_DISABLE, ACTIONS ActionKey.CSS_FONT_SIZE,
   ACTIONS ActionKey.THEME_MODE, ACTIONS ActionKey.OUTPUT, ACTIONS ActionKey.INVALID_ACTION]

/-- The mutable daemon state of `Daemon.__init__` (daemon.py:43-49) that the
claims touch: the chrome-path resolution result, the running flag, and (as
booleans, modelled from the spec) whether the subordinate socket server and
watcher have been closed and whether the process has exited. -/
structure DaemonState where
  chrome_path : Option String
  is_running : Bool
  socket_server_closed : Bool
  observer_stopped : Bool
  exited : Bool
  deriving DecidableEq, Repr

/-- `Daemon.close` (daemon.py:271-277). Modelled from the spec:
`Server.close` (§4.3) and the watcher stop (§4.4) are collaborators whose
code is not in the provided source; §4.5 states each close is independently
idempotent, so both are modelled as setting a flag; `sys.exit(0)` is modelled
as setting `exited`. -/
def close (d : DaemonState) : DaemonState :=
  { d with is_running := false, socket_server_closed := true,
           observer_stopped := true, exited := true }

/-- The receive loop of `Daemon.start` (daemon.py:266-269), applied to a list
of inbound messages standing for the stream the messenger would deliver: each
iteration first checks `is_running`, then handles one message. -/
def receive_loop (env : Env) (d : DaemonState) : List InMsg → DaemonState × List Effect
  | [] => (d, [])
  | msg :: rest =>
      if d.is_running then
        let effs := handle_message env d.chrome_path msg
        let res := receive_loop env d rest
        (res.1, effs ++ res.2)
      else (d, [])

/-- One external stimulus of the daemon: an upstream message, a local command,
or a watch event (whose `ColorChangeHandler.on_modified` callback is
`send_pywal_colors`, daemon.py:27-33 and 259-263). -/
inductive Input where
  | upstream (message : InMsg)
  | localCommand (command : String)
  | watchEvent
  deriving Repr

/-- One dispatch step of the daemon on a stimulus: all three handlers read
the state but none of them assigns `self.chrome_path` (only `set_chrome_path`
does, called once from `__init__`, daemon.py:43-53). -/
def step (env : Env) (d : DaemonState) : Input → DaemonState × List Effect
  | Input.upstream message => (d, handle_message env d.chrome_path message)
  | Input.localCommand c => (d, socket_thread_worker_step env c)
  | Input.watchEvent => (d, send_pywal_colors env)

/-- Runs a sequence of stimuli, each with its own collaborator environment
(so the profile-path resolver may well succeed later in the sequence). -/
def runSeq (d : DaemonState) : List (Env × Input) → DaemonState
  | [] => d
  | p :: rest => runSeq (step p.1 d p.2).1 rest

/-- A well-behaved collaborator environment: every collaborator reports a
non-empty explanation when it fails (§6 only fixes the result types, so this
is a hypothesis, not a fact of the source). -/
def GoodEnv (env : Env) : Prop :=
  (∀ p t, (env.enable_custom_css p t).1 = false → (env.enable_custom_css p t).2 ≠ "") ∧
  (∀ p t, (env.disable_custom_css p t).1 = false → (env.disable_custom_css p t).2 ≠ "") ∧
  (∀ p t s, (env.set_font_size p t s).1 = false → (env.set_font_size p t s).2 ≠ "") ∧
  (env.get_pywal_colors.1 = false →
    ∃ s, env.get_pywal_colors.2.2 = some s ∧ s ≠ "")

/-- A concrete all-succeeding environment used to evaluate the model at
specific inputs. -/
def envGood : Env :=
  { enable_custom_css := fun _ _ => (true, "enabled"),
    disable_custom_css := fun _ _ => (true, "disabled"),
    set_font_size := fun _ _ _ => (true, "font size set"),
    get_pywal_colors := (true, some JValue.obj, none) }

/-- The outbound-Message invariant of §3, amended to what the source
guarantees: the action is drawn from the vocabulary, and a failure Message
carries a non-empty explanation unless it is the invalid-action reply, which
carries no `message` at all. -/
def MessageWellFormed (m : Message) : Prop :=
  m.action ∈ ACTION_VOCABULARY ∧
  (m.success = false →
    (m.action = ACTIONS ActionKey.INVALID_ACTION ∧ m.message = none) ∨
    ∃ s, m.message = some s ∧ s ≠ "")

/-- A daemon state as `__init__` leaves it when `get_firefox_chrome_path`
failed (daemon.py:43-49): no chrome path, not yet running. -/
def initialDaemonNoChrome : DaemonState :=
  { chrome_path := none, is_running := true, socket_server_closed := false,
    observer_stopped := false, exited := false }

/-- A concrete stimulus sequence touching all three input sources, used to
evaluate `runSeq` at a specific input. -/
def demoSteps : List (Env × Input) :=
  [(envGood, Input.watchEvent),
   (envGood, Input.localCommand (COMMANDS CommandKey.UPDATE)),
   (envGood, Input.upstream { action := some (ACTIONS ActionKey.COLORS), target := none,
                              size := none })]

end Pywalfox

namespace Pywalfox

/-! ## Helper lemmas -/

theorem check_target_valid (msg : InMsg) (t : String) (h : msg.target = some t)
    (ht : 0 < t.length) : check_target msg = (some t, []) := by
  simp [check_target, h, ht]

theorem check_target_invalid (msg : InMsg) (h : msg.target = none ∨ msg.target = some "") :
    check_target msg = (none, send_invalid_action) := by
  rcases h with h | h <;> simp [check_target, h]

theorem check_chrome_path_unset (cp : Option String) (a t : String)
    (h : chromePathTruthy cp = false) :
    check_chrome_path cp a t =
      (false,
       [Effect.send { action := a, data := some (JValue.str t), success := false,
                      message := some "Could not find path to chrome folder" }]) := by
  simp [check_chrome_path, h]

theorem check_chrome_path_set (cp : Option String) (a t : String)
    (h : chromePathTruthy cp = true) : check_chrome_path cp a t = (true, []) := by
  simp [check_chrome_path, h]

theorem chromePathTruthy_some (p : String) (hp : p ≠ "") :
    chromePathTruthy (some p) = true := by
  simp [chromePathTruthy, hp]

theorem enable_response_no_chrome (env : Env) (cp : Option String) (msg : InMsg) (t : String)
    (h : msg.target = some t) (ht : 0 < t.length) (hcp : chromePathTruthy cp = false) :
    send_enable_css_response env cp msg =
      [Effect.send { action := ACTIONS ActionKey.CSS_ENABLE, data := some (JValue.str t),
                     success := false, message := some "Could not find path to chrome folder" }] := by
  simp [send_enable_css_response, check_target_valid msg t h ht,
        check_chrome_path_unset cp _ t hcp]

theorem disable_response_no_chrome (env : Env) (cp : Option String) (msg : InMsg) (t : String)
    (h : msg.target = some t) (ht : 0 < t.length) (hcp : chromePathTruthy cp = false) :
    send_disable_css_response env cp msg =
      [Effect.send { action := ACTIONS ActionKey.CSS_DISABLE, data := some (JValue.str t),
                     success := false, message := some "Could not find path to chrome folder" }] := by
  simp [send_disable_css_response, check_target_valid msg t h ht,
        check_chrome_path_unset cp _ t hcp]

theorem font_size_response_no_chrome (env : Env) (cp : Option String) (msg : InMsg) (t : String)
    (h : msg.target = some t) (ht : 0 < t.length) (hcp : chromePathTruthy cp = false) :
    send_font_size_response env cp msg =
      [Effect.send { action := ACTIONS ActionKey.CSS_FONT_SIZE, data := some (JValue.str t),
                     success := false, message := some "Could not find path to chrome folder" }] := by
  simp [send_font_size_response, check_target_valid msg t h ht,
        check_chrome_path_unset cp _ t hcp]

/-- C1: for every inbound upstream message whose `action` key is absent, or
whose `action` value is not one of the recognized upstream actions,
`handle_message` sends exactly one invalid-action Message to the extension
and sends nothing else (the effect list is exactly `send_invalid_action`, a
single send — never silence, never a crash). -/
theorem c1_unknown_action_invalid_reply (env : Env) (cp : Option String) (msg : InMsg)
    (h : msg.action = none ∨ ∃ a, msg.action = some a ∧ a ∉ UPSTREAM_ACTIONS) :
    handle_message env cp msg = send_invalid_action := by
  rcases h with h | ⟨a, ha, hnot⟩
  · simp [handle_message, h]
  · simp only [UPSTREAM_ACTIONS, List.mem_cons, List.mem_singleton, not_or,
      List.not_mem_nil, or_false] at hnot
    obtain ⟨h1, h2, h3, h4, h5⟩ := hnot
    simp [handle_message, ha, h1, h2, h3, h4, h5]

end Pywalfox

namespace Pywalfox

/-- Witness for C1 at a concrete unrecognized action. -/
theorem c1_unknown_action_invalid_reply_w :
    handle_message envGood none { action := some "bogus", target := none, size := none } =
      send_invalid_action :=
  c1_unknown_action_invalid_reply envGood none
    { action := some "bogus", target := none, size := none }
    (Or.inr ⟨"bogus", rfl, by decide⟩)

/-- C2: for every css-enable (likewise css-disable, css-font-size) message
whose `target` field is absent or empty, `handle_message` sends exactly the
invalid-action reply and invokes no filesystem-mutation collaborator. -/
theorem c2_missing_target_rejected (env : Env) (cp : Option String) (msg : InMsg)
    (htgt : msg.target = none ∨ msg.target = some "")
    (hact : msg.action = some (ACTIONS ActionKey.CSS_ENABLE) ∨
            msg.action = some (ACTIONS ActionKey.CSS_DISABLE) ∨
            msg.action = some (ACTIONS ActionKey.CSS_FONT_SIZE)) :
    handle_message env cp msg = send_invalid_action ∧
    ∀ e ∈ handle_message env cp msg, e.isFsMutation = false := by
  have hct := check_target_invalid msg htgt
  have heq : handle_message env cp msg = send_invalid_action := by
    rcases hact with ha | ha | ha <;>
      simp [handle_message, ha, ACTIONS, send_enable_css_response,
            send_disable_css_response, send_font_size_response, hct]
  refine ⟨heq, ?_⟩
  rw [heq]
  intro e he
  simp only [send_invalid_action, List.mem_singleton] at he
  subst he
  rfl

/-- Witness for C2 at a concrete css-enable message with an empty target. -/
theorem c2_missing_target_rejected_w :
    handle_message envGood none
        { action := some (ACTIONS ActionKey.CSS_ENABLE), target := some "", size := none } =
      send_invalid_action ∧
    ∀ e ∈ handle_message envGood none
        { action := some (ACTIONS ActionKey.CSS_ENABLE), target := some "", size := none },
      e.isFsMutation = false :=
  c2_missing_target_rejected envGood none
    { action := some (ACTIONS ActionKey.CSS_ENABLE), target := some "", size := none }
    (Or.inr rfl) (Or.inl rfl)

end Pywalfox

namespace Pywalfox

/-- C3: for every chrome-path-dependent action (css-enable, css-disable,
css-font-size) with a valid non-empty target, if `chrome_path` is falsy then
`handle_message` sends exactly one reply carrying that action with
`success=false` and the fixed message "Could not find path to chrome folder",
and performs no filesystem mutation. -/
theorem c3_chrome_path_failure (env : Env) (cp : Option String) (msg : InMsg) (t : String)
    (htgt : msg.target = some t) (ht : 0 < t.length) (hcp : chromePathTruthy cp = false) :
    (msg.action = some (ACTIONS ActionKey.CSS_ENABLE) →
      handle_message env cp msg =
        [Effect.send { action := ACTIONS ActionKey.CSS_ENABLE, data := some (JValue.str t),
                       success := false,
                       message := some "Could not find path to chrome folder" }]) ∧
    (msg.action = some (ACTIONS ActionKey.CSS_DISABLE) →
      handle_message env cp msg =
        [Effect.send { action := ACTIONS ActionKey.CSS_DISABLE, data := some (JValue.str t),
                       success := false,
                       message := some "Could not find path to chrome folder" }]) ∧
    (msg.action = some (ACTIONS ActionKey.CSS_FONT_SIZE) →
      handle_message env cp msg =
        [Effect.send { action := ACTIONS ActionKey.CSS_FONT_SIZE, data := some (JValue.str t),
                       success := false,
                       message := some "Could not find path to chrome folder" }]) ∧
    ((msg.action = some (ACTIONS ActionKey.CSS_ENABLE) ∨
      msg.action = some (ACTIONS ActionKey.CSS_DISABLE) ∨
      msg.action = some (ACTIONS ActionKey.CSS_FONT_SIZE)) →
      ∀ e ∈ handle_message env cp msg, e.isFsMutation = false) := by
  have he : msg.action = some (ACTIONS ActionKey.CSS_ENABLE) →
      handle_message env cp msg =
        [Effect.send { action := ACTIONS ActionKey.CSS_ENABLE, data := some (JValue.str t),
                       success := false,
                       message := some "Could not find path to chrome folder" }] := by
    intro ha
    simp [handle_message, ha, ACTIONS, enable_response_no_chrome env cp msg t htgt ht hcp]
  have hd : msg.action = some (ACTIONS ActionKey.CSS_DISABLE) →
      handle_message env cp msg =
        [Effect.send { action := ACTIONS ActionKey.CSS_DISABLE, data := some (JValue.str t),
                       success := false,
                       message := some "Could not find path to chrome folder" }] := by
    intro ha
    simp [handle_message, ha, ACTIONS, disable_response_no_chrome env cp msg t htgt ht hcp]
  have hf : msg.action = some (ACTIONS ActionKey.CSS_FONT_SIZE) →
      handle_message env cp msg =
        [Effect.send { action := ACTIONS ActionKey.CSS_FONT_SIZE, data := some (JValue.str t),
                       success := false,
                       message := some "Could not find path to chrome folder" }] := by
    intro ha
    simp [handle_message, ha, ACTIONS, font_size_response_no_chrome env cp msg t htgt ht hcp]
  refine ⟨he, hd, hf, ?_⟩
  intro hact e hmem
  rcases hact with ha | ha | ha
  · rw [he ha] at hmem
    simp only [List.mem_singleton] at hmem
    subst hmem; rfl
  · rw [hd ha] at hmem
    simp only [List.mem_singleton] at hmem
    subst hmem; rfl
  · rw [hf ha] at hmem
    simp only [List.mem_singleton] at hmem
    subst hmem; rfl

/-- Witness for C3 at a concrete css-enable message with an unset chrome path. -/
theorem c3_chrome_path_failure_w :
    handle_message envGood none
        { action := some (ACTIONS ActionKey.CSS_ENABLE), target := some "userChrome.css",
          size := none } =
      [Effect.send { action := ACTIONS ActionKey.CSS_ENABLE,
                     data := some (JValue.str "userChrome.css"), success := false,
                     message := some "Could not find path to chrome folder" }] :=
  (c3_chrome_path_failure envGood none
    { action := some (ACTIONS ActionKey.CSS_ENABLE), target := some "userChrome.css",
      size := none }
    "userChrome.css" rfl (by decide) (by decide)).1 rfl

/-- C4: a css-enable message with `target="foo.css"`, a resolved (truthy)
profile path `p`, and an arbitrary collaborator result yields exactly one
`callEnable` into the collaborator followed by exactly one reply with
`action="css-enable"`, `data="foo.css"`, and the collaborator's success flag
and message propagated verbatim; in particular a successful collaborator
result yields `success=true`. -/
theorem c4_css_enable_propagates (env : Env) (p : String) (hp : p ≠ "") (msg : InMsg)
    (ha : msg.action = some (ACTIONS ActionKey.CSS_ENABLE))
    (ht : msg.target = some "foo.css") :
    handle_message env (some p) msg =
      [Effect.callEnable p "foo.css",
       Effect.send { action := ACTIONS ActionKey.CSS_ENABLE,
                     data := some (JValue.str "foo.css"),
                     success := (env.enable_custom_css p "foo.css").1,
                     message := some (env.enable_custom_css p "foo.css").2 }] := by
  have htv := check_target_valid msg "foo.css" ht (by decide)
  have hcp := chromePathTruthy_some p hp
  simp [handle_message, ha, ACTIONS, send_enable_css_response, htv,
        check_chrome_path_set (some p) _ _ hcp]

/-- Witness for C4 at a concrete path and the all-succeeding environment. -/
theorem c4_css_enable_propagates_w :
    handle_message envGood (some "/home/u/.mozilla/firefox/p/chrome")
        { action := some (ACTIONS ActionKey.CSS_ENABLE), target := some "foo.css",
          size := none } =
      [Effect.callEnable "/home/u/.mozilla/firefox/p/chrome" "foo.css",
       Effect.send { action := ACTIONS ActionKey.CSS_ENABLE,
                     data := some (JValue.str "foo.css"),
                     success := (envGood.enable_custom_css "/home/u/.mozilla/firefox/p/chrome"
                       "foo.css").1,
                     message := some (envGood.enable_custom_css "/home/u/.mozilla/firefox/p/chrome"
                       "foo.css").2 }] :=
  c4_css_enable_propagates envGood "/home/u/.mozilla/firefox/p/chrome" (by decide)
    { action := some (ACTIONS ActionKey.CSS_ENABLE), target := some "foo.css", size := none }
    rfl rfl

end Pywalfox

namespace Pywalfox

theorem check_target_short (msg : InMsg) (t : String) (h : msg.target = some t)
    (hl : ¬ 0 < t.length) : check_target msg = (none, send_invalid_action) := by
  simp [check_target, h, hl]

theorem enable_response_ok (env : Env) (cp : Option String) (msg : InMsg) (t : String)
    (h : msg.target = some t) (ht : 0 < t.length) (hcp : chromePathTruthy cp = true) :
    send_enable_css_response env cp msg =
      [Effect.callEnable (cp.getD "") t,
       Effect.send { action := ACTIONS ActionKey.CSS_ENABLE, data := some (JValue.str t),
                     success := (env.enable_custom_css (cp.getD "") t).1,
                     message := some (env.enable_custom_css (cp.getD "") t).2 }] := by
  simp [send_enable_css_response, check_target_valid msg t h ht,
        check_chrome_path_set cp _ t hcp]

theorem disable_response_ok (env : Env) (cp : Option String) (msg : InMsg) (t : String)
    (h : msg.target = some t) (ht : 0 < t.length) (hcp : chromePathTruthy cp = true) :
    send_disable_css_response env cp msg =
      [Effect.callDisable (cp.getD "") t,
       Effect.send { action := ACTIONS ActionKey.CSS_DISABLE, data := some (JValue.str t),
                     success := (env.disable_custom_css (cp.getD "") t).1,
                     message := some (env.disable_custom_css (cp.getD "") t).2 }] := by
  simp [send_disable_css_response, check_target_valid msg t h ht,
        check_chrome_path_set cp _ t hcp]

theorem font_size_response_ok (env : Env) (cp : Option String) (msg : InMsg) (t : String)
    (sz : JValue) (h : msg.target = some t) (ht : 0 < t.length) (hsz : msg.size = some sz)
    (hcp : chromePathTruthy cp = true) :
    send_font_size_response env cp msg =
      [Effect.callSetFontSize (cp.getD "") t sz,
       Effect.send { action := ACTIONS ActionKey.CSS_FONT_SIZE, data := some sz,
                     success := (env.set_font_size (cp.getD "") t sz).1,
                     message := some (env.set_font_size (cp.getD "") t sz).2 }] := by
  simp [send_font_size_response, check_target_valid msg t h ht,
        check_chrome_path_set cp _ t hcp, hsz]

theorem font_size_response_no_size (env : Env) (cp : Option String) (msg : InMsg) (t : String)
    (h : msg.target = some t) (ht : 0 < t.length) (hsz : msg.size = none)
    (hcp : chromePathTruthy cp = true) :
    send_font_size_response env cp msg = [] := by
  simp [send_font_size_response, check_target_valid msg t h ht,
        check_chrome_path_set cp _ t hcp, hsz]

theorem enable_response_cases (env : Env) (cp : Option String) (msg : InMsg) :
    send_enable_css_response env cp msg = send_invalid_action ∨
    (∃ t, send_enable_css_response env cp msg =
      [Effect.send { action := ACTIONS ActionKey.CSS_ENABLE, data := some (JValue.str t),
                     success := false, message := some "Could not find path to chrome folder" }]) ∨
    (∃ t, send_enable_css_response env cp msg =
      [Effect.callEnable (cp.getD "") t,
       Effect.send { action := ACTIONS ActionKey.CSS_ENABLE, data := some (JValue.str t),
                     success := (env.enable_custom_css (cp.getD "") t).1,
                     message := some (env.enable_custom_css (cp.getD "") t).2 }]) := by
  rcases htt : msg.target with _ | t
  · left
    simp [send_enable_css_response, check_target_invalid msg (Or.inl htt)]
  · by_cases hl : 0 < t.length
    · by_cases hcp : chromePathTruthy cp = true
      · exact Or.inr (Or.inr ⟨t, enable_response_ok env cp msg t htt hl hcp⟩)
      · exact Or.inr (Or.inl ⟨t, enable_response_no_chrome env cp msg t htt hl
          (by simpa using hcp)⟩)
    · left
      simp [send_enable_css_response, check_target_short msg t htt hl]

theorem disable_response_cases (env : Env) (cp : Option String) (msg : InMsg) :
    send_disable_css_response env cp msg = send_invalid_action ∨
    (∃ t, send_disable_css_response env cp msg =
      [Effect.send { action := ACTIONS ActionKey.CSS_DISABLE, data := some (JValue.str t),
                     success := false, message := some "Could not find path to chrome folder" }]) ∨
    (∃ t, send_disable_css_response env cp msg =
      [Effect.callDisable (cp.getD "") t,
       Effect.send { action := ACTIONS ActionKey.CSS_DISABLE, data := some (JValue.str t),
                     success := (env.disable_custom_css (cp.getD "") t).1,
                     message := some (env.disable_custom_css (cp.getD "") t).2 }]) := by
  rcases htt : msg.target with _ | t
  · left
    simp [send_disable_css_response, check_target_invalid msg (Or.inl htt)]
  · by_cases hl : 0 < t.length
    · by_cases hcp : chromePathTruthy cp = true
      · exact Or.inr (Or.inr ⟨t, disable_response_ok env cp msg t htt hl hcp⟩)
      · exact Or.inr (Or.inl ⟨t, disable_response_no_chrome env cp msg t htt hl
          (by simpa using hcp)⟩)
    · left
      simp [send_disable_css_response, check_target_short msg t htt hl]

theorem font_size_response_cases (env : Env) (cp : Option String) (msg : InMsg) :
    send_font_size_response env cp msg = send_invalid_action ∨
    send_font_size_response env cp msg = [] ∨
    (∃ t, send_font_size_response env cp msg =
      [Effect.send { action := ACTIONS ActionKey.CSS_FONT_SIZE, data := some (JValue.str t),
                     success := false, message := some "Could not find path to chrome folder" }]) ∨
    (∃ t sz, send_font_size_response env cp msg =
      [Effect.callSetFontSize (cp.getD "") t sz,
       Effect.send { action := ACTIONS ActionKey.CSS_FONT_SIZE, data := some sz,
                     success := (env.set_font_size (cp.getD "") t sz).1,
                     message := some (env.set_font_size (cp.getD "") t sz).2 }]) := by
  rcases htt : msg.target with _ | t
  · left
    simp [send_font_size_response, check_target_invalid msg (Or.inl htt)]
  · by_cases hl : 0 < t.length
    · by_cases hcp : chromePathTruthy cp = true
      · rcases hsz : msg.size with _ | sz
        · exact Or.inr (Or.inl (font_size_response_no_size env cp msg t htt hl hsz hcp))
        · exact Or.inr (Or.inr (Or.inr ⟨t, sz,
            font_size_response_ok env cp msg t sz htt hl hsz hcp⟩))
      · exact Or.inr (Or.inr (Or.inl ⟨t, font_size_response_no_chrome env cp msg t htt hl
          (by simpa using hcp)⟩))
    · left
      simp [send_font_size_response, check_target_short msg t htt hl]

end Pywalfox

namespace Pywalfox

theorem sends_of_handle_message (env : Env) (cp : Option String) (msg : InMsg) (m : Message)
    (h : Effect.send m ∈ handle_message env cp msg) :
    m = { action := ACTIONS ActionKey.INVALID_ACTION, success := false } ∨
    m = { action := ACTIONS ActionKey.VERSION, data := some (JValue.str DAEMON_VERSION) } ∨
    m = { action := ACTIONS ActionKey.COLORS, data := env.get_pywal_colors.2.1,
          success := env.get_pywal_colors.1, message := env.get_pywal_colors.2.2 } ∨
    (∃ a t, (a = ACTIONS ActionKey.CSS_ENABLE ∨ a = ACTIONS ActionKey.CSS_DISABLE ∨
             a = ACTIONS ActionKey.CSS_FONT_SIZE) ∧
      m = { action := a, data := some (JValue.str t), success := false,
            message := some "Could not find path to chrome folder" }) ∨
    (∃ t, m = { action := ACTIONS ActionKey.CSS_ENABLE, data := some (JValue.str t),
                success := (env.enable_custom_css (cp.getD "") t).1,
                message := some (env.enable_custom_css (cp.getD "") t).2 }) ∨
    (∃ t, m = { action := ACTIONS ActionKey.CSS_DISABLE, data := some (JValue.str t),
                success := (env.disable_custom_css (cp.getD "") t).1,
                message := some (env.disable_custom_css (cp.getD "") t).2 }) ∨
    (∃ t sz, m = { action := ACTIONS ActionKey.CSS_FONT_SIZE, data := some sz,
                   success := (env.set_font_size (cp.getD "") t sz).1,
                   message := some (env.set_font_size (cp.getD "") t sz).2 }) := by
  unfold handle_message at h
  rcases ha : msg.action with _ | a
  · rw [ha] at h
    simp [send_invalid_action] at h
    exact Or.inl h
  · rw [ha] at h
    dsimp only at h
    split_ifs at h
    · simp [send_version] at h
      exact Or.inr (Or.inl h)
    · simp [send_pywal_colors] at h
      exact Or.inr (Or.inr (Or.inl h))
    · rcases enable_response_cases env cp msg with hc | ⟨t, hc⟩ | ⟨t, hc⟩ <;> rw [hc] at h
      · simp [send_invalid_action] at h
        exact Or.inl h
      · simp at h
        exact Or.inr (Or.inr (Or.inr (Or.inl ⟨ACTIONS ActionKey.CSS_ENABLE, t, Or.inl rfl, h⟩)))
      · simp at h
        exact Or.inr (Or.inr (Or.inr (Or.inr (Or.inl ⟨t, h⟩))))
    · rcases disable_response_cases env cp msg with hc | ⟨t, hc⟩ | ⟨t, hc⟩ <;> rw [hc] at h
      · simp [send_invalid_action] at h
        exact Or.inl h
      · simp at h
        exact Or.inr (Or.inr (Or.inr (Or.inl
          ⟨ACTIONS ActionKey.CSS_DISABLE, t, Or.inr (Or.inl rfl), h⟩)))
      · simp at h
        exact Or.inr (Or.inr (Or.inr (Or.inr (Or.inr (Or.inl ⟨t, h⟩)))))
    · rcases font_size_response_cases env cp msg with hc | hc | ⟨t, hc⟩ | ⟨t, sz, hc⟩ <;>
        rw [hc] at h
      · simp [send_invalid_action] at h
        exact Or.inl h
      · simp at h
      · simp at h
        exact Or.inr (Or.inr (Or.inr (Or.inl
          ⟨ACTIONS ActionKey.CSS_FONT_SIZE, t, Or.inr (Or.inr rfl), h⟩)))
      · simp at h
        exact Or.inr (Or.inr (Or.inr (Or.inr (Or.inr (Or.inr ⟨t, sz, h⟩)))))
    · simp [send_invalid_action] at h
      exact Or.inl h

theorem sends_of_worker (env : Env) (cmd : String) (m : Message)
    (h : Effect.send m ∈ socket_thread_worker_step env cmd) :
    m = { action := ACTIONS ActionKey.COLORS, data := env.get_pywal_colors.2.1,
          success := env.get_pywal_colors.1, message := env.get_pywal_colors.2.2 } ∨
    ∃ mode, m = { action := ACTIONS ActionKey.THEME_MODE, data := some (JValue.str mode) } := by
  unfold socket_thread_worker_step at h
  split_ifs at h
  · simp [send_pywal_colors] at h
    exact Or.inl h
  · simp [send_theme_mode] at h
    exact Or.inr ⟨"dark", h⟩
  · simp [send_theme_mode] at h
    exact Or.inr ⟨"light", h⟩
  · simp [send_theme_mode] at h
    exact Or.inr ⟨"auto", h⟩
  · simp at h

theorem envGood_good : GoodEnv envGood := by
  refine ⟨?_, ?_, ?_, ?_⟩ <;> simp [GoodEnv, envGood]

end Pywalfox

namespace Pywalfox

/-- C5: on the local channel, `update` triggers exactly one colors-palette
Message upstream; `theme-dark`, `theme-light`, `theme-auto` each trigger
exactly one theme-mode Message with the corresponding mode string; any other
command produces no outbound message at all; the effect vocabulary contains
no local-channel reply, matching the source, which never writes back to the
CLI client. -/
theorem c5_command_routing (env : Env) (cmd : String) :
    (socket_thread_worker_step env (COMMANDS CommandKey.UPDATE) =
      [Effect.callGetPywalColors,
       Effect.send { action := ACTIONS ActionKey.COLORS, data := env.get_pywal_colors.2.1,
                     success := env.get_pywal_colors.1,
                     message := env.get_pywal_colors.2.2 }]) ∧
    (socket_thread_worker_step env (COMMANDS CommandKey.THEME_MODE_DARK) =
      [Effect.send { action := ACTIONS ActionKey.THEME_MODE,
                     data := some (JValue.str "dark") }]) ∧
    (socket_thread_worker_step env (COMMANDS CommandKey.THEME_MODE_LIGHT) =
      [Effect.send { action := ACTIONS ActionKey.THEME_MODE,
                     data := some (JValue.str "light") }]) ∧
    (socket_thread_worker_step env (COMMANDS CommandKey.THEME_MODE_AUTO) =
      [Effect.send { action := ACTIONS ActionKey.THEME_MODE,
                     data := some (JValue.str "auto") }]) ∧
    (cmd ∉ [COMMANDS CommandKey.UPDATE, COMMANDS CommandKey.THEME_MODE_DARK,
            COMMANDS CommandKey.THEME_MODE_LIGHT, COMMANDS CommandKey.THEME_MODE_AUTO] →
      socket_thread_worker_step env cmd = []) := by
  refine ⟨?_, ?_, ?_, ?_, ?_⟩
  · simp [socket_thread_worker_step, COMMANDS, send_pywal_colors]
  · simp [socket_thread_worker_step, COMMANDS, send_theme_mode]
  · simp [socket_thread_worker_step, COMMANDS, send_theme_mode]
  · simp [socket_thread_worker_step, COMMANDS, send_theme_mode]
  · intro hcmd
    simp only [List.mem_cons, List.not_mem_nil, or_false, not_or] at hcmd
    obtain ⟨h1, h2, h3, h4⟩ := hcmd
    simp [socket_thread_worker_step, h1, h2, h3, h4]

/-- Witness for C5 at a concrete unrecognized command. -/
theorem c5_command_routing_w :
    socket_thread_worker_step envGood "restart" = [] :=
  (c5_command_routing envGood "restart").2.2.2.2 (by decide)

/-- Counterexample to C6 as stated: on a message with no `action` key the
dispatcher sends the invalid-action Message, which has `success = false` and
carries no `message` field at all (daemon.py:110 passes only
`success=False`). -/
theorem c6_counterexample :
    handle_message envGood none { action := none, target := none, size := none } =
      [Effect.send { action := ACTIONS ActionKey.INVALID_ACTION, success := false }] ∧
    ({ action := ACTIONS ActionKey.INVALID_ACTION, success := false } : Message).success
      = false ∧
    ({ action := ACTIONS ActionKey.INVALID_ACTION, success := false } : Message).message
      = none :=
  ⟨rfl, rfl, rfl⟩

/-- C6 amended: every outbound Message of the dispatcher has an action drawn
from the §6 vocabulary, and — provided every collaborator reports a non-empty
message on failure — whenever `success` is false the Message carries a
non-empty explanatory `message`, except the invalid-action reply, which has
`success=false` and no `message`. -/
theorem c6_outbound_invariant (env : Env) (hEnv : GoodEnv env) (cp : Option String) :
    (∀ msg m, Effect.send m ∈ handle_message env cp msg → MessageWellFormed m) ∧
    (∀ cmd m, Effect.send m ∈ socket_thread_worker_step env cmd → MessageWellFormed m) := by
  obtain ⟨hen, hdi, hfs, hco⟩ := hEnv
  have colors_ok : MessageWellFormed
      { action := ACTIONS ActionKey.COLORS, data := env.get_pywal_colors.2.1,
        success := env.get_pywal_colors.1, message := env.get_pywal_colors.2.2 } := by
    refine ⟨by simp [ACTION_VOCABULARY], ?_⟩
    intro hs
    obtain ⟨s, hsome, hne⟩ := hco hs
    exact Or.inr ⟨s, hsome, hne⟩
  constructor
  · intro msg m h
    rcases sends_of_handle_message env cp msg m h with
      hm | hm | hm | ⟨a, t, haz, hm⟩ | ⟨t, hm⟩ | ⟨t, hm⟩ | ⟨t, sz, hm⟩
    · subst hm
      exact ⟨by simp [ACTION_VOCABULARY], fun _ => Or.inl ⟨rfl, rfl⟩⟩
    · subst hm
      exact ⟨by simp [ACTION_VOCABULARY], by simp⟩
    · subst hm
      exact colors_ok
    · subst hm
      refine ⟨?_, ?_⟩
      · rcases haz with rfl | rfl | rfl <;> simp [ACTION_VOCABULARY]
      · intro _
        exact Or.inr ⟨"Could not find path to chrome folder", rfl, by decide⟩
    · subst hm
      exact ⟨by simp [ACTION_VOCABULARY], fun hs => Or.inr ⟨_, rfl, hen _ t hs⟩⟩
    · subst hm
      exact ⟨by simp [ACTION_VOCABULARY], fun hs => Or.inr ⟨_, rfl, hdi _ t hs⟩⟩
    · subst hm
      exact ⟨by simp [ACTION_VOCABULARY], fun hs => Or.inr ⟨_, rfl, hfs _ t sz hs⟩⟩
  · intro cmd m h
    rcases sends_of_worker env cmd m h with hm | ⟨mode, hm⟩
    · subst hm
      exact colors_ok
    · subst hm
      exact ⟨by simp [ACTION_VOCABULARY], by simp⟩

/-- Witness for C6 amended at the all-succeeding environment and a concrete
version-query message. -/
theorem c6_outbound_invariant_w :
    MessageWellFormed { action := ACTIONS ActionKey.VERSION,
                        data := some (JValue.str DAEMON_VERSION) } :=
  (c6_outbound_invariant envGood envGood_good none).1
    { action := some (ACTIONS ActionKey.VERSION), target := none, size := none }
    { action := ACTIONS ActionKey.VERSION, data := some (JValue.str DAEMON_VERSION) }
    (by simp [handle_message, ACTIONS, send_version])

end Pywalfox

namespace Pywalfox

/-- Counterexample to C7 as stated: a css-font-size message with a valid
non-empty target and a resolved profile path but no `size` key produces no
effect at all — `send_font_size_response` (daemon.py:170) simply falls
through without sending any reply, so there is not exactly one outbound
reply. -/
theorem c7_counterexample :
    handle_message envGood (some "/home/u/.mozilla/firefox/p/chrome")
      { action := some (ACTIONS ActionKey.CSS_FONT_SIZE), target := some "userChrome.css",
        size := none } = [] := by
  decide

/-- C7 amended: a css-font-size message with a valid non-empty target and a
resolved profile path results in exactly one collaborator call followed by
exactly one outbound reply when the `size` field is present, and in no
outbound message at all when the `size` field is absent. -/
theorem c7_font_size_reply (env : Env) (p t : String) (hp : p ≠ "") (ht : 0 < t.length) :
    (∀ sz : JValue,
      handle_message env (some p)
          { action := some (ACTIONS ActionKey.CSS_FONT_SIZE), target := some t,
            size := some sz } =
        [Effect.callSetFontSize p t sz,
         Effect.send { action := ACTIONS ActionKey.CSS_FONT_SIZE, data := some sz,
                       success := (env.set_font_size p t sz).1,
                       message := some (env.set_font_size p t sz).2 }]) ∧
    handle_message env (some p)
        { action := some (ACTIONS ActionKey.CSS_FONT_SIZE), target := some t, size := none } =
      [] := by
  have hcp := chromePathTruthy_some p hp
  constructor
  · intro sz
    have hok := font_size_response_ok env (some p)
      { action := some (ACTIONS ActionKey.CSS_FONT_SIZE), target := some t, size := some sz }
      t sz rfl ht rfl hcp
    simp [handle_message, ACTIONS] at hok ⊢
    simpa using hok
  · have hns := font_size_response_no_size env (some p)
      { action := some (ACTIONS ActionKey.CSS_FONT_SIZE), target := some t, size := none }
      t rfl ht rfl hcp
    simp [handle_message, ACTIONS] at hns ⊢
    exact hns

/-- Witness for C7 amended at a concrete path, target and size. -/
theorem c7_font_size_reply_w :
    handle_message envGood (some "/p/chrome")
        { action := some (ACTIONS ActionKey.CSS_FONT_SIZE), target := some "userChrome.css",
          size := some (JValue.num 14) } =
      [Effect.callSetFontSize "/p/chrome" "userChrome.css" (JValue.num 14),
       Effect.send { action := ACTIONS ActionKey.CSS_FONT_SIZE, data := some (JValue.num 14),
                     success := (envGood.set_font_size "/p/chrome" "userChrome.css"
                       (JValue.num 14)).1,
                     message := some (envGood.set_font_size "/p/chrome" "userChrome.css"
                       (JValue.num 14)).2 }] :=
  (c7_font_size_reply envGood "/p/chrome" "userChrome.css" (by decide) (by decide)).1
    (JValue.num 14)

/-- C8: an inbound upstream message whose action is the theme-mode action is
answered with the invalid-action reply; no send of `handle_message` ever
carries the theme-mode action; theme-mode Messages originate only from the
local theme commands. -/
theorem c8_theme_mode_only_from_commands (env : Env) (cp : Option String) (msg : InMsg) :
    (msg.action = some (ACTIONS ActionKey.THEME_MODE) →
      handle_message env cp msg = send_invalid_action) ∧
    (∀ m, Effect.send m ∈ handle_message env cp msg →
      m.action ≠ ACTIONS ActionKey.THEME_MODE) ∧
    socket_thread_worker_step env (COMMANDS CommandKey.THEME_MODE_DARK) =
      send_theme_mode "dark" ∧
    socket_thread_worker_step env (COMMANDS CommandKey.THEME_MODE_LIGHT) =
      send_theme_mode "light" ∧
    socket_thread_worker_step env (COMMANDS CommandKey.THEME_MODE_AUTO) =
      send_theme_mode "auto" := by
  refine ⟨?_, ?_, ?_, ?_, ?_⟩
  · intro ha
    simp [handle_message, ha, ACTIONS]
  · intro m h
    rcases sends_of_handle_message env cp msg m h with
      hm | hm | hm | ⟨a, t, haz, hm⟩ | ⟨t, hm⟩ | ⟨t, hm⟩ | ⟨t, sz, hm⟩
    · subst hm; simp [ACTIONS]
    · subst hm; simp [ACTIONS]
    · subst hm; simp [ACTIONS]
    · subst hm
      rcases haz with rfl | rfl | rfl <;> simp [ACTIONS]
    · subst hm; simp [ACTIONS]
    · subst hm; simp [ACTIONS]
    · subst hm; simp [ACTIONS]
  · simp [socket_thread_worker_step, COMMANDS, send_theme_mode, send_pywal_colors]
  · simp [socket_thread_worker_step, COMMANDS, send_theme_mode, send_pywal_colors]
  · simp [socket_thread_worker_step, COMMANDS, send_theme_mode, send_pywal_colors]

/-- Witness for C8 at a concrete inbound theme-mode message. -/
theorem c8_theme_mode_only_from_commands_w :
    handle_message envGood none
        { action := some (ACTIONS ActionKey.THEME_MODE), target := none, size := none } =
      send_invalid_action :=
  (c8_theme_mode_only_from_commands envGood none
    { action := some (ACTIONS ActionKey.THEME_MODE), target := none, size := none }).1 rfl

end Pywalfox

namespace Pywalfox

/-- C9: `close` clears the running flag (so the receive loop processes
nothing further and terminates), closes the command-server listener, stops
the watcher subscription, and exits the process; a second `close` is
idempotent — no additional effect. -/
theorem c9_close_shuts_down_idempotently (d : DaemonState) :
    (close d).is_running = false ∧
    (close d).socket_server_closed = true ∧
    (close d).observer_stopped = true ∧
    (close d).exited = true ∧
    close (close d) = close d ∧
    ∀ (env : Env) (msgs : List InMsg), receive_loop env (close d) msgs = (close d, []) := by
  refine ⟨rfl, rfl, rfl, rfl, rfl, ?_⟩
  intro env msgs
  cases msgs with
  | nil => rfl
  | cons a l => simp [receive_loop, close]

/-- C10: `chrome_path` is computed once at construction and never updated:
running any sequence of upstream messages, local commands and watch events —
each step even with a fresh collaborator environment in which the profile
path has become resolvable — leaves `chrome_path` unchanged, so a resolution
failure at startup makes every subsequent chrome-path-dependent action (here
css-enable with a valid target) still fail with the fixed explanation. -/
theorem c10_chrome_path_frozen (d : DaemonState) (steps : List (Env × Input)) :
    (runSeq d steps).chrome_path = d.chrome_path ∧
    (chromePathTruthy d.chrome_path = false →
      ∀ (env : Env) (msg : InMsg) (t : String), msg.target = some t → 0 < t.length →
        msg.action = some (ACTIONS ActionKey.CSS_ENABLE) →
        handle_message env (runSeq d steps).chrome_path msg =
          [Effect.send { action := ACTIONS ActionKey.CSS_ENABLE, data := some (JValue.str t),
                         success := false,
                         message := some "Could not find path to chrome folder" }]) := by
  have hrun : runSeq d steps = d := by
    induction steps with
    | nil => rfl
    | cons p rest ih =>
        cases p with
        | mk e i => cases i <;> simpa [runSeq, step] using ih
  refine ⟨by rw [hrun], ?_⟩
  intro hcp env msg t htgt ht ha
  rw [hrun]
  simp [handle_message, ha, ACTIONS, enable_response_no_chrome env d.chrome_path msg t htgt ht hcp]

/-- Witness for C10: after a concrete three-step stimulus sequence the chrome
path is still unset and a concrete css-enable message still fails. -/
theorem c10_chrome_path_frozen_w :
    (runSeq initialDaemonNoChrome demoSteps).chrome_path = none ∧
    handle_message envGood (runSeq initialDaemonNoChrome demoSteps).chrome_path
        { action := some (ACTIONS ActionKey.CSS_ENABLE), target := some "userContent.css",
          size := none } =
      [Effect.send { action := ACTIONS ActionKey.CSS_ENABLE,
                     data := some (JValue.str "userContent.css"), success := false,
                     message := some "Could not find path to chrome folder" }] :=
  ⟨(c10_chrome_path_frozen initialDaemonNoChrome demoSteps).1,
   (c10_chrome_path_frozen initialDaemonNoChrome demoSteps).2 rfl envGood
     { action := some (ACTIONS ActionKey.CSS_ENABLE), target := some "userContent.css",
       size := none }
     "userContent.css" rfl (by decide) rfl⟩

end Pywalfox
